import Mathlib

/-!
Verification development for `batch_exporter.py`, a batch PlantUML-to-PNG
exporter.  The Python source is shallowly embedded: pure helpers become Lean
functions on `String` / `List Nat` (bytes are `Nat` values below 256), the
HTTP layer is represented by explicit request-outcome values, and the two
loops (`iter_diagrams` and `run_exports`) become structural recursions over
the list of input lines / units.
-/

deriving instance DecidableEq for Except

/-! ## HTTP transport (`_is_png`, `_export_post`, `_export_get`, `export_png`) -/

/-- Source constant `_PNG_MAGIC = b"\x89PNG\r\n\x1a\n"` from the source. -/
def _PNG_MAGIC : List Nat := [0x89, 0x50, 0x4E, 0x47, 0x0D, 0x0A, 0x1A, 0x0A]

/-- An HTTP response as the transport sees it: a status code and a body. -/
structure Response where
  status : Nat
  content : List Nat
deriving DecidableEq

/-- Outcome of one `requests` call: either a raised
`requests.exceptions.RequestException` (carrying a message) or a response. -/
inductive NetResult where
  | exc (msg : String)
  | resp (r : Response)
deriving DecidableEq

/-- The exceptions `export_png` can surface: a propagated requests
exception, the POST `RuntimeError("Server did not return PNG on POST.")`,
or the GET `RuntimeError(f"GET failed: HTTP {status}")`. -/
inductive ExportError where
  | reqExc (msg : String)
  | postNoPng
  | getFailed (status : Nat)
deriving DecidableEq

/-- Predicate `_is_png`: the body starts with the PNG magic bytes. -/
def _is_png (r : Response) : Bool :=
  _PNG_MAGIC.isPrefixOf r.content

/-- Function `_export_post`: on a response, return the body if it is a PNG, else
`None`; a raised requests exception propagates. -/
def _export_post (post : NetResult) : Except ExportError (Option (List Nat)) :=
  match post with
  | .exc m => .error (.reqExc m)
  | .resp r => .ok (if _is_png r then some r.content else none)

/-- Function `_export_get`: on a response, return the body if it is a PNG, else raise
`RuntimeError("GET failed: HTTP {status}")`; a requests exception propagates. -/
def _export_get (get : NetResult) : Except ExportError (List Nat) :=
  match get with
  | .exc m => .error (.reqExc m)
  | .resp r => if _is_png r then .ok r.content else .error (.getFailed r.status)

/-- Python `str.upper()` for method strings (`method = method.upper()`); ASCII. -/
def pyUpper (s : String) : String :=
  String.mk (s.data.map Char.toUpper)

/-- Function `export_png(diagram, base, method)`.  `post` and `get` are the outcomes
the server would give to the one POST and the one GET request this call can
make.  `AUTO` is the Python expression
`_export_post(...) or _export_get(...)`: the `or` falls through to GET
exactly when POST returned a falsy value (`None`, or empty bytes). -/
def export_png (post get : NetResult) (method : String) :
    Except ExportError (List Nat) :=
  let m := pyUpper method
  if m = "POST" then
    match _export_post post with
    | .error e => .error e
    | .ok none => .error .postNoPng
    | .ok (some img) => .ok img
  else if m = "GET" then
    _export_get get
  else
    match _export_post post with
    | .error e => .error e
    | .ok none => _export_get get
    | .ok (some img) => if img.isEmpty then _export_get get else .ok img

/-! ## Container readiness probe (`_wait_for_server`) -/

/-- Outcome of one polling attempt inside `_wait_for_server`: either a
raised `requests.exceptions.RequestException` or a response status. -/
inductive ProbeResult where
  | exc
  | resp (status : Nat)
deriving DecidableEq

/-- Function `_wait_for_server`, with the bounded polling loop modelled by the finite
list of probe outcomes available before the 60 s deadline.  Returns the
0-based index of the attempt that saw status 200 or 400, or the timeout
`RuntimeError` if no attempt does. -/
def _wait_for_server : List ProbeResult → Except String Nat
  | [] => .error "Timed out waiting for local PlantUML server to start."
  | .resp s :: rest =>
    if s = 200 ∨ s = 400 then .ok 0
    else
      match _wait_for_server rest with
      | .ok n => .ok (n + 1)
      | .error e => .error e
  | .exc :: rest =>
    match _wait_for_server rest with
    | .ok n => .ok (n + 1)
    | .error e => .error e

/-! ## Tokenizer (`iter_diagrams` and helpers)

`text.splitlines()` is modelled for the common line terminators
`"\n"`, `"\r\n"` and `"\r"` (Python also splits on a few rarer control and
Unicode terminators, which no claim here exercises).  `str.strip()` and the
regex class `\s` are modelled on ASCII whitespace. -/

/-- ASCII whitespace, as recognised by `str.strip()` and the regex `\s`. -/
def isSpaceChar (c : Char) : Bool :=
  c = ' ' ∨ c = '\t' ∨ c = '\n' ∨ c = '\r' ∨ c = '\x0b' ∨ c = '\x0c'

/-- Accumulator pass for `str.splitlines()`. -/
def splitLinesAux : List Char → List Char → List String
  | [], acc => if acc.isEmpty then [] else [String.mk acc.reverse]
  | '\r' :: '\n' :: rest, acc => String.mk acc.reverse :: splitLinesAux rest []
  | '\r' :: rest, acc => String.mk acc.reverse :: splitLinesAux rest []
  | '\n' :: rest, acc => String.mk acc.reverse :: splitLinesAux rest []
  | c :: rest, acc => splitLinesAux rest (c :: acc)

/-- Python `text.splitlines()`. -/
def splitLines (s : String) : List String :=
  splitLinesAux s.data []

/-- Python `line.strip()`. -/
def pyStrip (s : String) : String :=
  String.mk (((s.data.dropWhile isSpaceChar).reverse.dropWhile isSpaceChar).reverse)

/-- Matching `_START_RE.match(line.strip())` for
`_START_RE = re.compile(r"@startuml(?:\s+([^\s]+))?", re.IGNORECASE)`.
`re.match` anchors at the start only, so any stripped line whose first nine
characters case-insensitively read `@startuml` matches; the optional group
captures the first whitespace-separated token after the keyword when one
follows.  Returns `none` when the regex does not match, `some arg?` when it
does. -/
def matchStart (line : String) : Option (Option String) :=
  let s := (pyStrip line).data
  if (s.take 9).map Char.toLower = "@startuml".data then
    match s.drop 9 with
    | [] => some none
    | c :: cs =>
      if isSpaceChar c then
        let tok := ((c :: cs).dropWhile isSpaceChar).takeWhile (fun d => ¬ isSpaceChar d)
        if tok.isEmpty then some none else some (some (String.mk tok))
      else some none
  else none

/-- A word character for Python's Unicode-aware regex `\w` (alphanumerics,
per `str.isalnum(), plus underscore), restricted to the Basic Latin and
Latin-1 Supplement blocks; word characters above U+00FF exist but are
elided, no claim here uses them.  The Latin-1 members were enumerated
against CPython's `re` module. -/
def pyWordChar (c : Char) : Bool :=
  (48 ≤ c.toNat ∧ c.toNat ≤ 57) ∨ (65 ≤ c.toNat ∧ c.toNat ≤ 90) ∨
  (97 ≤ c.toNat ∧ c.toNat ≤ 122) ∨ c.toNat = 95 ∨
  c.toNat = 0xAA ∨ c.toNat = 0xB2 ∨ c.toNat = 0xB3 ∨ c.toNat = 0xB5 ∨
  c.toNat = 0xB9 ∨ c.toNat = 0xBA ∨ c.toNat = 0xBC ∨ c.toNat = 0xBD ∨ c.toNat = 0xBE ∨
  (0xC0 ≤ c.toNat ∧ c.toNat ≤ 0xFF ∧ c.toNat ≠ 0xD7 ∧ c.toNat ≠ 0xF7)

/-- A character retained by the class `[^\w\-_.]` of
`re.sub(r"[^\w\-_.]", "_", raw)`: a `\w` word character, hyphen,
underscore, or dot. -/
def keepChar (c : Char) : Bool :=
  pyWordChar c ∨ c.toNat = 45 ∨ c.toNat = 95 ∨ c.toNat = 46

/-- Python `re.sub(r"[^\w\-_.]", "_", raw)`: every character outside the class is
replaced by an underscore. -/
def sanitize (s : String) : String :=
  String.mk (s.data.map (fun c => if keepChar c then c else '_'))

/-- Formatting `f"diagram_{count:02}"`: the counter zero-padded to width two. -/
def pad2 (n : Nat) : String :=
  if n < 10 then "0" ++ toString n else toString n

/-- Python `"\n".join(buf)`. -/
def joinNL : List String → String
  | [] => ""
  | [x] => x
  | x :: y :: ys => x ++ "\n" ++ joinNL (y :: ys)

/-- Python `needle in hay` for strings: substring test. -/
def containsSub (needle : List Char) : List Char → Bool
  | [] => needle.isEmpty
  | c :: rest => needle.isPrefixOf (c :: rest) ∨ containsSub needle rest

/-- Test `_END_DIRECTIVE in line` with `_END_DIRECTIVE = "@enduml"`
(a case-sensitive substring test). -/
def containsEnd (line : String) : Bool :=
  containsSub "@enduml".data line.data

/-- The scanner state of `iter_diagrams`: either between diagrams, or
inside an open unit holding its (already sanitized) name and the buffered
lines. -/
inductive ScanMode where
  | outside
  | inside (name : String) (buf : List String)

/-- The `while` loops of `iter_diagrams` as a single forward pass.
Outside a unit, a line whose stripped form matches the start regex opens a
unit (storing the raw line) and bumps the counter; other lines are skipped.
Inside a unit, the first line containing `"@enduml"` is appended and the
unit is emitted; other lines are appended as content; at end of input the
open unit is emitted unterminated. -/
def scanSM : List String → Nat → ScanMode → List (String × String)
  | [], _, .outside => []
  | [], _, .inside name buf => [(name, joinNL buf ++ "\n")]
  | l :: rest, count, .outside =>
    match matchStart l with
    | none => scanSM rest count .outside
    | some arg =>
      let raw := arg.getD ("diagram_" ++ pad2 count)
      scanSM rest (count + 1) (.inside (sanitize raw) [l])
  | l :: rest, count, .inside name buf =>
    if containsEnd l then
      (name, joinNL (buf ++ [l]) ++ "\n") :: scanSM rest count .outside
    else
      scanSM rest count (.inside name (buf ++ [l]))

/-- Function `iter_diagrams(text)`, fully materialised. -/
def iter_diagrams (text : String) : List (String × String) :=
  scanSM (splitLines text) 1 .outside

/-- The start-directive lines that actually open units: a two-state pass
that skips the lines consumed as content of an open unit (`true` =
currently inside a unit). -/
def topStartLines : List String → Bool → List String
  | [], _ => []
  | l :: rest, false =>
    match matchStart l with
    | none => topStartLines rest false
    | some _ => l :: topStartLines rest true
  | l :: rest, true =>
    if containsEnd l then topStartLines rest false else topStartLines rest true

/-- All lines of the document whose stripped form matches the start regex,
whether or not the scanner treats them as directives. -/
def countAllStarts (text : String) : Nat :=
  ((splitLines text).filter (fun l => (matchStart l).isSome)).length

/-- The raw name `iter_diagrams` derives for a unit opened at line `l` when
the counter is `k`: the regex group if present, else the fallback. -/
def expectedRaw (l : String) (k : Nat) : String :=
  ((matchStart l).getD none).getD ("diagram_" ++ pad2 k)

/-! ## Encoder (`_ALPHABET`, `_enc6`, `_encode_bytes`, `plantuml_encode`) -/

/-- The 64-symbol alphabet of the encoder. -/
def _ALPHABET : List Char :=
  "0123456789ABCDEFGHIJKLMNOPQRSTUVWXYZabcdefghijklmnopqrstuvwxyz-_".data

/-- Lookup `_enc6(b) = _ALPHABET[b & 0x3F]`. -/
def _enc6 (b : Nat) : Char :=
  _ALPHABET.getD (b &&& 0x3F) '0'

/-- One iteration of the `_encode_bytes` loop: pack three bytes into four
six-bit symbols. -/
def encGroup (b1 b2 b3 : Nat) : List Char :=
  [_enc6 (b1 >>> 2),
   _enc6 (((b1 &&& 0x3) <<< 4) ||| (b2 >>> 4)),
   _enc6 (((b2 &&& 0xF) <<< 2) ||| (b3 >>> 6)),
   _enc6 (b3 &&& 0x3F)]

/-- Function `_encode_bytes(data)`: the `range(0, len(data), 3)` loop, with
out-of-range bytes read as `0`. -/
def _encode_bytes : List Nat → List Char
  | [] => []
  | [b1] => encGroup b1 0 0
  | [b1, b2] => encGroup b1 b2 0
  | b1 :: b2 :: b3 :: rest => encGroup b1 b2 b3 ++ _encode_bytes rest

/-- UTF-8 encoding of one scalar value (`text.encode()` per character). -/
def utf8Char (n : Nat) : List Nat :=
  if n < 0x80 then [n]
  else if n < 0x800 then [0xC0 + n / 64, 0x80 + n % 64]
  else if n < 0x10000 then [0xE0 + n / 4096, 0x80 + (n / 64) % 64, 0x80 + n % 64]
  else [0xF0 + n / 262144, 0x80 + (n / 4096) % 64, 0x80 + (n / 64) % 64, 0x80 + n % 64]

/-- Python `text.encode()`: the UTF-8 bytes of the string. -/
def utf8 (s : String) : List Nat :=
  s.data.flatMap (fun c => utf8Char c.toNat)

/-- The Adler-32 checksum that ends a zlib stream, big-endian. -/
def adlerLoop : List Nat → Nat → Nat → Nat × Nat
  | [], a, b => (a, b)
  | x :: rest, a, b => adlerLoop rest ((a + x) % 65521) ((b + a + x) % 65521)

/-- Adler-32 of a byte list, as the four trailing bytes of a zlib stream. -/
def adler32 (data : List Nat) : List Nat :=
  let ab := adlerLoop data 1 0
  [ab.2 / 256, ab.2 % 256, ab.1 / 256, ab.1 % 256]

/-- Modelled from the spec: `zlib.compress(raw, 9)` is external-library
code; the spec describes it as "compressing ... with a standard
deflate-family compressor" producing a 2-byte header, the deflate body and
a 4-byte trailing checksum.  It is modelled here as a valid zlib stream
whose deflate body is a single stored block (valid for inputs under
64 KiB): 2-byte header `78 DA`, stored-block header, the raw bytes, and
the Adler-32 trailer.  Every claim settled through this model (alphabet
closure, payload length) holds for any compressor, as the universal lemmas
over `_encode_bytes` show. -/
def zlib_compress9 (data : List Nat) : List Nat :=
  [0x78, 0xDA] ++
  [0x01, data.length % 256, data.length / 256,
   (65535 - data.length) % 256, (65535 - data.length) / 256] ++
  data ++ adler32 data

/-- Function `plantuml_encode(text)`: compress the UTF-8 bytes, strip the 2-byte
zlib header and 4-byte checksum (`comp[2:-4]`), and 6-bit-encode. -/
def plantuml_encode (text : String) : String :=
  let comp := zlib_compress9 (utf8 text)
  String.mk (_encode_bytes ((comp.take (comp.length - 4)).drop 2))

/-! ## Batch orchestrator (`run_exports`) -/

/-- The run-level summary `run_exports` accumulates: the `ok` and `fail`
counters, the `failures` list of `(name, message)` pairs, and the output
files written (name and bytes), each in processing order. -/
structure BatchSummary where
  ok : Nat
  fail : Nat
  failures : List (String × String)
  written : List (String × List Nat)
deriving DecidableEq

/-- The `for name, text in iter_diagrams(source)` loop.  `outcome i u` is
what the `try` body's export-and-write of the `i`-th unit `u` does: either
the PNG bytes written, or the message of the exception caught by the
`except` arm.  Each unit is processed and the loop always continues to the
next one. -/
def runLoop (outcome : Nat → String × String → Except String (List Nat)) :
    List (String × String) → Nat → BatchSummary
  | [], _ => ⟨0, 0, [], []⟩
  | u :: rest, i =>
    let s := runLoop outcome rest (i + 1)
    match outcome i u with
    | .ok img => ⟨s.ok + 1, s.fail, s.failures, (u.1 ++ ".png", img) :: s.written⟩
    | .error msg => ⟨s.ok, s.fail + 1, (u.1, msg) :: s.failures, s.written⟩

/-- Function `run_exports(source, ...)`: tokenize, process every unit, and pair the
summary with the process exit status (`sys.exit(1)` exactly when the
failure list is non-empty and the `fail` counter is non-zero; otherwise
the function returns normally and the process exits 0). -/
def run_exports (source : String)
    (outcome : Nat → String × String → Except String (List Nat)) :
    BatchSummary × Nat :=
  let s := runLoop outcome (iter_diagrams source) 0
  (s, if ¬ s.failures.isEmpty ∧ s.fail ≠ 0 then 1 else 0)

/-- Concrete three-unit document for the orchestrator claim. -/
def source3 : String :=
  "@startuml a\n@enduml\n@startuml b\n@enduml\n@startuml c\n@enduml\n"

/-- Concrete outcome assignment: only the second unit (index 1) fails. -/
def outcome3 : Nat → String × String → Except String (List Nat) :=
  fun i _ => if i = 1 then .error "boom" else .ok _PNG_MAGIC

/-! ## Definitions used only to state claims -/

/-- Refinement of the claimed sanitization rule, following the claim text:
keep exactly the ASCII class characters `A-Z`, `a-z`, `0-9`, underscore,
dot and hyphen. -/
def claimKeep (c : Char) : Bool :=
  (65 ≤ c.toNat ∧ c.toNat ≤ 90) ∨ (97 ≤ c.toNat ∧ c.toNat ≤ 122) ∨
  (48 ≤ c.toNat ∧ c.toNat ≤ 57) ∨ c.toNat = 95 ∨ c.toNat = 46 ∨ c.toNat = 45

/-- Sanitization as the claim describes it: replace every character outside
the ASCII class with an underscore, keep every character inside it. -/
def claimSanitize (s : String) : String :=
  String.mk (s.data.map (fun c => if claimKeep c then c else '_'))

/-! ## Helper lemmas -/

theorem enc6_mem (b : Nat) : _enc6 b ∈ _ALPHABET := by
  have hle : b &&& 0x3F ≤ 0x3F := Nat.and_le_right
  have hlen : _ALPHABET.length = 64 := by decide
  have h : b &&& 0x3F < _ALPHABET.length := by omega
  rw [_enc6, List.getD_eq_getElem _ _ h]
  exact List.getElem_mem h

theorem encGroup_mem (b1 b2 b3 : Nat) : ∀ c ∈ encGroup b1 b2 b3, c ∈ _ALPHABET := by
  intro c hc
  simp only [encGroup, List.mem_cons, List.not_mem_nil, or_false] at hc
  rcases hc with h | h | h | h <;> exact h ▸ enc6_mem _

theorem encode_bytes_mem : ∀ (data : List Nat), ∀ c ∈ _encode_bytes data, c ∈ _ALPHABET
  | [] => by intro c hc; simp [_encode_bytes] at hc
  | [b1] => by intro c hc; exact encGroup_mem b1 0 0 c hc
  | [b1, b2] => by intro c hc; exact encGroup_mem b1 b2 0 c hc
  | b1 :: b2 :: b3 :: rest => by
    intro c hc
    rw [_encode_bytes] at hc
    rcases List.mem_append.1 hc with h | h
    · exact encGroup_mem b1 b2 b3 c h
    · exact encode_bytes_mem rest c h

theorem encode_bytes_length :
    ∀ (data : List Nat), (_encode_bytes data).length = 4 * ((data.length + 2) / 3)
  | [] => by simp [_encode_bytes]
  | [b1] => by simp [_encode_bytes, encGroup]
  | [b1, b2] => by simp [_encode_bytes, encGroup]
  | b1 :: b2 :: b3 :: rest => by
    rw [_encode_bytes, List.length_append, encode_bytes_length rest]
    simp only [encGroup, List.length_cons, List.length_nil]
    omega

/-! ## Claim theorems -/

/-- C5: every character of the payload produced by the encoder is drawn
from the 64-symbol alphabet `0-9A-Za-z-_`. -/
theorem c5_alphabet_closure (text : String) :
    (plantuml_encode text).data.all (fun c => decide (c ∈ _ALPHABET)) = true := by
  rw [List.all_eq_true]
  intro c hc
  rw [decide_eq_true_eq]
  exact encode_bytes_mem _ c hc

/-- C9 (amended): the encoder is deterministic but not length-preserving:
`_encode_bytes` emits exactly `4 * ⌈n/3⌉` symbols for `n` input bytes, so
every payload's length is a multiple of four, in general different from
the input text's length. -/
theorem c9_encoder_length_amended :
    (∀ data : List Nat, (_encode_bytes data).length = 4 * ((data.length + 2) / 3)) ∧
    (∀ text : String, 4 ∣ (plantuml_encode text).length) := by
  refine ⟨encode_bytes_length, fun text => ?_⟩
  show 4 ∣ (plantuml_encode text).data.length
  rw [plantuml_encode]
  rw [show (String.mk (_encode_bytes ((zlib_compress9 (utf8 text)).take
        ((zlib_compress9 (utf8 text)).length - 4) |>.drop 2))).data
      = _encode_bytes ((zlib_compress9 (utf8 text)).take
        ((zlib_compress9 (utf8 text)).length - 4) |>.drop 2) from rfl]
  rw [encode_bytes_length]
  exact Dvd.intro _ rfl

/-- C9 (counterexample): `plantuml_encode` applied to the one-character
text `"a"` yields a payload whose length is not 1, so the encoder is not
length-preserving. -/
theorem c9_length_preserving_cex :
    (plantuml_encode "a").length ≠ ("a" : String).length := by decide

/-- C2: for every HTTP response (any status, any body), the per-diagram
export succeeds with the body bytes if and only if the body starts with
the PNG magic bytes `89 50 4E 47 0D 0A 1A 0A`; the status code plays no
role in the decision, for the GET path and the POST path alike. -/
theorem c2_png_content_sniffing (st : Nat) (body : List Nat) :
    (_export_get (.resp ⟨st, body⟩) = .ok body ↔ _PNG_MAGIC.isPrefixOf body = true) ∧
    (_export_post (.resp ⟨st, body⟩) = .ok (some body) ↔ _PNG_MAGIC.isPrefixOf body = true) ∧
    (¬ _PNG_MAGIC.isPrefixOf body = true →
      _export_get (.resp ⟨st, body⟩) = .error (.getFailed st)) ∧
    _PNG_MAGIC = [0x89, 0x50, 0x4E, 0x47, 0x0D, 0x0A, 0x1A, 0x0A] := by
  by_cases h : _PNG_MAGIC.isPrefixOf body = true <;>
    simp [_export_get, _export_post, _is_png, h, _PNG_MAGIC]

/-- C8: during the readiness probe, a polling attempt that receives HTTP
status 200 or 400 makes `_wait_for_server` declare the server ready at
that attempt without looking at any further attempt; a network-level
request exception makes it keep polling, the final outcome being that of
the remaining attempts. -/
theorem c8_readiness_probe (s : Nat) (rest : List ProbeResult) :
    ((s = 200 ∨ s = 400) → _wait_for_server (.resp s :: rest) = .ok 0) ∧
    (_wait_for_server (.exc :: rest) =
      match _wait_for_server rest with
      | .ok n => .ok (n + 1)
      | .error e => .error e) := by
  refine ⟨fun h => ?_, rfl⟩
  rw [_wait_for_server, if_pos h]

/-- C8 (witness): a server answering HTTP 400 to the very first probe is
declared ready immediately. -/
theorem c8_readiness_probe_witness :
    _wait_for_server [.resp 400] = .ok 0 :=
  (c8_readiness_probe 400 []).1 (Or.inr rfl)

/-- C1 (amended): under AUTO, POST is attempted first; when POST returns a
non-image response, GET is attempted and decides the outcome: a valid PNG
from GET is returned with no error, and a non-image GET response surfaces
an error carrying the GET failure's status.  However a network-level
exception raised by the POST attempt propagates immediately — GET is not
attempted in that case, so not every POST failure triggers the fallback. -/
theorem c1_auto_fallback_amended (post get : NetResult) (r : Response) :
    (post = .resp r → _is_png r = false →
      export_png post get "AUTO" = _export_get get) ∧
    (∀ r2 : Response, post = .resp r → _is_png r = false →
      get = .resp r2 → _is_png r2 = true →
      export_png post get "AUTO" = .ok r2.content) ∧
    (∀ r2 : Response, post = .resp r → _is_png r = false →
      get = .resp r2 → _is_png r2 = false →
      export_png post get "AUTO" = .error (.getFailed r2.status)) ∧
    (∀ m : String, post = .exc m →
      export_png post get "AUTO" = .error (.reqExc m)) := by
  have hauto : pyUpper "AUTO" = "AUTO" := by decide
  refine ⟨?_, ?_, ?_, ?_⟩
  · intro hp hpng
    subst hp
    simp [export_png, hauto, _export_post, hpng]
  · intro r2 hp hpng hg hpng2
    subst hp; subst hg
    simp [export_png, hauto, _export_post, hpng, _export_get, hpng2]
  · intro r2 hp hpng hg hpng2
    subst hp; subst hg
    simp [export_png, hauto, _export_post, hpng, _export_get, hpng2]
  · intro m hp
    subst hp
    simp [export_png, hauto, _export_post]

/-- C1 (witness): concrete instances of the amended fallback behavior —
POST 200 with a non-image body falls back to GET, returning the GET PNG
or surfacing the GET status 500; a POST connection error surfaces as the
propagated request exception. -/
theorem c1_auto_fallback_amended_witness :
    export_png (.resp ⟨200, [1]⟩) (.resp ⟨500, _PNG_MAGIC⟩) "AUTO" = .ok _PNG_MAGIC ∧
    export_png (.resp ⟨200, [1]⟩) (.resp ⟨500, [2]⟩) "AUTO" = .error (.getFailed 500) ∧
    export_png (.exc "down") (.resp ⟨200, _PNG_MAGIC⟩) "AUTO" = .error (.reqExc "down") :=
  ⟨(c1_auto_fallback_amended (.resp ⟨200, [1]⟩) (.resp ⟨500, _PNG_MAGIC⟩) ⟨200, [1]⟩).2.1
      ⟨500, _PNG_MAGIC⟩ rfl (by decide) rfl (by decide),
   (c1_auto_fallback_amended (.resp ⟨200, [1]⟩) (.resp ⟨500, [2]⟩) ⟨200, [1]⟩).2.2.1
      ⟨500, [2]⟩ rfl (by decide) rfl (by decide),
   (c1_auto_fallback_amended (.exc "down") (.resp ⟨200, _PNG_MAGIC⟩) ⟨0, []⟩).2.2.2
      "down" rfl⟩

/-- C1 (counterexample): the claim says that if the POST attempt fails for
any reason GET is attempted, and export fails only if both attempts fail.
With a POST attempt that raises a connection error and a GET endpoint that
would return a valid PNG, `export_png` under AUTO surfaces the POST
exception and never attempts GET — it does not return the GET image. -/
theorem c1_auto_fallback_cex :
    export_png (.exc "connection refused") (.resp ⟨200, _PNG_MAGIC⟩) "AUTO"
      = .error (.reqExc "connection refused") ∧
    _export_get (.resp ⟨200, _PNG_MAGIC⟩) = .ok _PNG_MAGIC := by decide

/-- Helper for C10: inside an open unit, every line not containing the
exact substring `"@enduml"` is appended as content, and the first line
containing it is appended and terminates the unit. -/
theorem scan_inside_end (name : String) (e : String) (count : Nat) :
    ∀ (content : List String) (buf rest : List String),
    (∀ l ∈ content, containsEnd l = false) → containsEnd e = true →
    scanSM (content ++ e :: rest) count (.inside name buf)
      = (name, joinNL ((buf ++ content) ++ [e]) ++ "\n") :: scanSM rest count .outside := by
  intro content
  induction content with
  | nil =>
    intro buf rest _ he
    simp only [List.nil_append, List.append_nil]
    rw [scanSM, if_pos he]
  | cons l ls ih =>
    intro buf rest hc he
    have hl : containsEnd l = false := hc l (List.mem_cons_self l ls)
    rw [List.cons_append, scanSM, if_neg (by simp [hl])]
    rw [ih (buf ++ [l]) rest (fun x hx => hc x (List.mem_cons_of_mem l hx)) he]
    simp [List.append_assoc]

/-- C10: end-of-unit detection is case-sensitive although start detection
is case-insensitive: inside an open unit a line terminates the unit iff it
contains the exact lowercase substring `"@enduml"`; the uppercase variant
`"@ENDUML"` does not terminate a unit and is buffered as ordinary content,
as the concrete document shows. -/
theorem c10_end_directive_case :
    (∀ (name e : String) (count : Nat) (content buf rest : List String),
      (∀ l ∈ content, containsEnd l = false) → containsEnd e = true →
      scanSM (content ++ e :: rest) count (.inside name buf)
        = (name, joinNL ((buf ++ content) ++ [e]) ++ "\n") :: scanSM rest count .outside) ∧
    containsEnd "@ENDUML" = false ∧
    containsEnd "@enduml" = true ∧
    iter_diagrams "@startuml\n@ENDUML\n@enduml\nafter"
      = [("diagram_01", "@startuml\n@ENDUML\n@enduml\n")] := by
  refine ⟨fun name e count content buf rest hc he =>
    scan_inside_end name e count content buf rest hc he, by decide, by decide, by decide⟩

/-- C10 (witness): the helper applied to the concrete buffered unit — the
line `"@ENDUML"` is consumed as content and the following `"@enduml"`
line terminates the unit. -/
theorem c10_end_directive_case_witness :
    scanSM (["@ENDUML"] ++ "@enduml" :: []) 1 (.inside "diagram_01" ["@startuml"])
      = [("diagram_01", "@startuml\n@ENDUML\n@enduml\n")] :=
  (c10_end_directive_case.1 "diagram_01" "@enduml" 1 ["@ENDUML"] ["@startuml"] []
      (by decide) (by decide)).trans (by decide)

/-- Helper for C3: the orchestrator loop visits every unit once, in order,
recording each failing unit as a `(name, message)` entry and each
succeeding unit as a written `name.png` file. -/
theorem runLoop_spec (outcome : Nat → String × String → Except String (List Nat)) :
    ∀ (us : List (String × String)) (i : Nat),
    runLoop outcome us i = ⟨
      (us.enumFrom i).countP (fun p => match outcome p.1 p.2 with
        | .ok _ => true | .error _ => false),
      (us.enumFrom i).countP (fun p => match outcome p.1 p.2 with
        | .ok _ => false | .error _ => true),
      (us.enumFrom i).filterMap (fun p => match outcome p.1 p.2 with
        | .error msg => some (p.2.1, msg) | .ok _ => none),
      (us.enumFrom i).filterMap (fun p => match outcome p.1 p.2 with
        | .ok img => some (p.2.1 ++ ".png", img) | .error _ => none)⟩ := by
  intro us
  induction us with
  | nil => intro i; rfl
  | cons u rest ih =>
    intro i
    rw [runLoop, ih (i + 1)]
    cases h : outcome i u <;>
      simp [List.enumFrom_cons, List.countP_cons, List.filterMap_cons, h]

/-- Helper for C3: counter bookkeeping of the orchestrator loop. -/
theorem runLoop_counts (outcome : Nat → String × String → Except String (List Nat)) :
    ∀ (us : List (String × String)) (i : Nat),
    (runLoop outcome us i).failures.length = (runLoop outcome us i).fail ∧
    (runLoop outcome us i).written.length = (runLoop outcome us i).ok ∧
    (runLoop outcome us i).ok + (runLoop outcome us i).fail = us.length := by
  intro us
  induction us with
  | nil => intro i; exact ⟨rfl, rfl, rfl⟩
  | cons u rest ih =>
    intro i
    obtain ⟨h1, h2, h3⟩ := ih (i + 1)
    rw [runLoop]
    cases h : outcome i u <;> simp [h, h1, h2] <;> omega

/-- C3: the orchestrator processes all tokenized units in emission order;
a failing unit is recorded as a `(name, message)` entry and never aborts
the rest; a succeeding unit writes `name.png`; the exit status is non-zero
iff at least one unit failed.  In particular, for the concrete three-unit
document where only unit 2 fails, the run writes 2 files, reports
`succeeded=2, failed=1` with `("b", "boom")` in the failure list, and
exits non-zero. -/
theorem c3_partial_failure_isolation :
    (∀ (source : String) (outcome : Nat → String × String → Except String (List Nat)),
      (run_exports source outcome).1.failures
        = (iter_diagrams source).enum.filterMap
            (fun p => match outcome p.1 p.2 with
              | .error msg => some (p.2.1, msg) | .ok _ => none) ∧
      (run_exports source outcome).1.written
        = (iter_diagrams source).enum.filterMap
            (fun p => match outcome p.1 p.2 with
              | .ok img => some (p.2.1 ++ ".png", img) | .error _ => none) ∧
      (run_exports source outcome).1.failures.length = (run_exports source outcome).1.fail ∧
      (run_exports source outcome).1.written.length = (run_exports source outcome).1.ok ∧
      (run_exports source outcome).1.ok + (run_exports source outcome).1.fail
        = (iter_diagrams source).length ∧
      ((run_exports source outcome).2 ≠ 0 ↔ (run_exports source outcome).1.fail ≠ 0)) ∧
    run_exports source3 outcome3
      = (⟨2, 1, [("b", "boom")], [("a.png", _PNG_MAGIC), ("c.png", _PNG_MAGIC)]⟩, 1) := by
  refine ⟨fun source outcome => ?_, by decide⟩
  have h1 : (run_exports source outcome).1 = runLoop outcome (iter_diagrams source) 0 := rfl
  obtain ⟨hf, hw, hl⟩ := runLoop_counts outcome (iter_diagrams source) 0
  refine ⟨?_, ?_, by rw [h1]; exact hf, by rw [h1]; exact hw, by rw [h1]; exact hl, ?_⟩
  · rw [h1, runLoop_spec outcome (iter_diagrams source) 0]
    rfl
  · rw [h1, runLoop_spec outcome (iter_diagrams source) 0]
    rfl
  · have h2 : (run_exports source outcome).2
        = if ¬ (runLoop outcome (iter_diagrams source) 0).failures.isEmpty ∧
             (runLoop outcome (iter_diagrams source) 0).fail ≠ 0 then 1 else 0 := rfl
    rw [h1, h2]
    by_cases hz : (runLoop outcome (iter_diagrams source) 0).fail = 0
    · have hnil : (runLoop outcome (iter_diagrams source) 0).failures = [] :=
        List.eq_nil_of_length_eq_zero (by rw [hf, hz])
      simp [hnil, hz]
    · have hne : (runLoop outcome (iter_diagrams source) 0).failures ≠ [] := by
        intro hnil
        exact hz (by rw [← hf, hnil]; rfl)
      simp [List.isEmpty_iff, hne, hz]

/-- Helper: the opening line is a prefix of the emitted unit text. -/
theorem joinNL_head_append (l0 : String) (xs : List String) :
    ∃ rpart, joinNL (l0 :: xs) ++ "\n" = l0 ++ rpart := by
  cases xs with
  | nil => exact ⟨"\n", rfl⟩
  | cons y ys =>
    refine ⟨"\n" ++ joinNL (y :: ys) ++ "\n", ?_⟩
    rw [joinNL, String.append_assoc, String.append_assoc, String.append_assoc]

/-- Master invariant of the scanner: in outside mode with counter `count`,
the emitted units line up one-to-one, in order, with the top-level
start-directive lines numbered from `count`; each unit's text starts with
its directive line and its name is the sanitized explicit argument, or the
sanitized `diagram_NN` fallback built from the unit's 1-based position. -/
theorem scan_master (lines : List String) :
    (∀ count : Nat,
      List.Forall₂ (fun (u : String × String) (kl : Nat × String) =>
          (∃ rpart, u.2 = kl.2 ++ rpart) ∧ u.1 = sanitize (expectedRaw kl.2 kl.1))
        (scanSM lines count .outside)
        ((topStartLines lines false).enumFrom count)) ∧
    (∀ (count : Nat) (name l0 : String) (buf' : List String) (k : Nat),
      name = sanitize (expectedRaw l0 k) →
      List.Forall₂ (fun (u : String × String) (kl : Nat × String) =>
          (∃ rpart, u.2 = kl.2 ++ rpart) ∧ u.1 = sanitize (expectedRaw kl.2 kl.1))
        (scanSM lines count (.inside name (l0 :: buf')))
        ((k, l0) :: (topStartLines lines true).enumFrom count)) := by
  induction lines with
  | nil =>
    constructor
    · intro count
      exact List.Forall₂.nil
    · intro count name l0 buf' k hname
      exact List.Forall₂.cons ⟨joinNL_head_append l0 buf', hname⟩ List.Forall₂.nil
  | cons l rest ih =>
    constructor
    · intro count
      cases hm : matchStart l with
      | none =>
        simp only [scanSM, topStartLines, hm]
        exact ih.1 count
      | some arg =>
        simp only [scanSM, topStartLines, hm, List.enumFrom_cons]
        exact ih.2 (count + 1) _ l [] count (by simp [expectedRaw, hm])
    · intro count name l0 buf' k hname
      cases he : containsEnd l with
      | true =>
        simp only [scanSM, topStartLines, he, if_pos]
        rw [show (l0 :: buf') ++ [l] = l0 :: (buf' ++ [l]) from rfl]
        exact List.Forall₂.cons ⟨joinNL_head_append l0 (buf' ++ [l]), hname⟩ (ih.1 count)
      | false =>
        simp only [scanSM, topStartLines, he, if_neg]
        rw [show (l0 :: buf') ++ [l] = l0 :: (buf' ++ [l]) from rfl]
        exact ih.2 count name l0 (buf' ++ [l]) k hname

/-- Helper: project the master invariant onto the directive lines. -/
theorem forall2_pairs_snd (us : List (String × String)) (ps : List (Nat × String)) :
    List.Forall₂ (fun (u : String × String) (kl : Nat × String) =>
        (∃ rpart, u.2 = kl.2 ++ rpart) ∧ u.1 = sanitize (expectedRaw kl.2 kl.1)) us ps →
    List.Forall₂ (fun (u : String × String) (l : String) => ∃ rpart, u.2 = l ++ rpart)
      us (ps.map Prod.snd) := by
  intro h
  induction h with
  | nil => exact List.Forall₂.nil
  | cons h1 h2 ih => simpa using List.Forall₂.cons h1.1 ih

/-- C4 (amended): for every source document, the tokenizer produces
exactly one unit per top-level start directive — start-directive lines
consumed as content of an already-open unit do not open units — and the
units appear in source order: the n-th unit's text begins with the n-th
top-level start-directive line. -/
theorem c4_unit_count_amended (text : String) :
    List.Forall₂ (fun (u : String × String) (l : String) => ∃ rpart, u.2 = l ++ rpart)
      (iter_diagrams text) (topStartLines (splitLines text) false) ∧
    (iter_diagrams text).length = (topStartLines (splitLines text) false).length := by
  have h2 := forall2_pairs_snd _ _ ((scan_master (splitLines text)).1 1)
  rw [List.enumFrom_map_snd] at h2
  exact ⟨h2, h2.length_eq⟩

/-- C4 (counterexample): the document
`"@startuml\n@startuml\n@enduml\n"` contains two lines matching the start
directive, but the tokenizer produces only one unit, because the second
start directive is consumed as content of the open unit. -/
theorem c4_unit_count_cex :
    ¬ ((iter_diagrams "@startuml\n@startuml\n@enduml\n").length
        = countAllStarts "@startuml\n@startuml\n@enduml\n") := by decide

/-- C7: unit naming uses the explicit directive argument when present and
otherwise the fallback `diagram_NN` built from the 1-based counter, which
advances once per opened unit regardless of explicit naming; concretely, a
document opening with `@startuml MyDiagram` and later a bare `@startuml`
names its units `MyDiagram` and `diagram_02`. -/
theorem c7_unit_naming :
    (∀ text : String,
      List.Forall₂ (fun (u : String × String) (kl : Nat × String) =>
          u.1 = sanitize (expectedRaw kl.2 kl.1))
        (iter_diagrams text)
        ((topStartLines (splitLines text) false).enumFrom 1)) ∧
    (iter_diagrams "@startuml MyDiagram\nA->B\n@enduml\n@startuml\nB->C\n@enduml\n").map
        Prod.fst = ["MyDiagram", "diagram_02"] := by
  refine ⟨fun text => ?_, by decide⟩
  exact ((scan_master (splitLines text)).1 1).imp (fun {a b} hh => hh.2)

/-- Helper for C6: on ASCII characters the source's keep-class (Python
`\w` plus hyphen, underscore, dot) coincides with the claimed class
`[A-Za-z0-9_.-]`. -/
theorem keepChar_eq_ascii (c : Char) (h : c.toNat < 128) : keepChar c = claimKeep c := by
  simp only [keepChar, pyWordChar, claimKeep, decide_eq_decide, decide_eq_true_eq]
  constructor
  · intro hk
    rcases hk with hk | hk | hk | hk <;> omega
  · intro hk
    omega

/-- C6 (amended): sanitization replaces every ASCII character outside
`[A-Za-z0-9_.-]` with an underscore and keeps every ASCII character inside
it (so `"foo bar!"` sanitizes to `"foo_bar_"`); however non-ASCII word
characters — Unicode letters and digits matched by Python's `\w`, such as
`é` — are kept, not replaced. -/
theorem c6_sanitize_amended :
    (∀ s : String, (∀ c ∈ s.data, c.toNat < 128) → sanitize s = claimSanitize s) ∧
    sanitize "foo bar!" = "foo_bar_" ∧
    sanitize "é" = "é" := by
  refine ⟨fun s hs => ?_, by decide, by decide⟩
  rw [sanitize, claimSanitize]
  exact congrArg String.mk (List.map_congr_left fun c hc => by
    rw [keepChar_eq_ascii c (hs c hc)])

/-- C6 (witness): the amended statement applied to the concrete ASCII
name `"foo bar!"`. -/
theorem c6_sanitize_amended_witness :
    sanitize "foo bar!" = claimSanitize "foo bar!" ∧ sanitize "foo bar!" = "foo_bar_" :=
  ⟨c6_sanitize_amended.1 "foo bar!" (by decide), c6_sanitize_amended.2.1⟩

/-- C6 (counterexample): `é` lies outside the claimed class
`[A-Za-z0-9_.-]`, so the claim predicts it is replaced by an underscore,
but the code keeps it: Python's `\w` matches it as a Unicode word
character. -/
theorem c6_sanitize_cex :
    sanitize "é" = "é" ∧ claimSanitize "é" = "_" ∧ ("é" : String) ≠ "_" := by decide

/-- C2 (witness): a 200-status non-image body fails with the GET status in
the error, and a 500-status body starting with the PNG magic succeeds. -/
theorem c2_png_content_sniffing_witness :
    _export_get (.resp ⟨200, [1, 2, 3]⟩) = .error (.getFailed 200) ∧
    _export_get (.resp ⟨500, _PNG_MAGIC⟩) = .ok _PNG_MAGIC :=
  ⟨(c2_png_content_sniffing 200 [1, 2, 3]).2.2.1 (by decide),
   (c2_png_content_sniffing 500 _PNG_MAGIC).1.mpr (by decide)⟩

/-- C3 (witness): the exit-status equivalence applied to the concrete
three-unit run where unit 2 fails. -/
theorem c3_partial_failure_isolation_witness :
    (run_exports source3 outcome3).2 ≠ 0 :=
  ((c3_partial_failure_isolation.1 source3 outcome3).2.2.2.2.2).mpr (by decide)
